import Mathlib

/-!
Verification of the candidate-NIC classification logic of
`openstack_hypervisor/cli/interfaces.py`.

The classifier is a pure decision function over a snapshot of interface
records.  We embed the record type and the three relevant functions
(`is_link_local`, `is_interface_configured`, `filter_candidate_nics`)
directly from the source.  The filesystem query `load_virtual_interfaces`
is an external collaborator; following the source's own abstraction
boundary it becomes an explicit `virtual_nics` parameter of the
classifier.
-/

namespace OpenstackHypervisor

/-- Snapshot of one network interface, as consumed by the classifier.
Mirrors the fields of the pyroute2 `Interface` object that the code under
verification reads: `nic["ifname"]`, `nic["slave_kind"]` (None when not
enslaved), `nic["kind"]`, and `nic.ipaddr` (None, or a summary whose
records each carry an `address` string). -/
structure Interface where
  ifname : String
  slave_kind : Option String
  kind : String
  ipaddr : Option (List String)
deriving DecidableEq, Repr

/-- Embedding of `is_link_local`: `address.startswith("fe80")`.  Python's
`str.startswith` is modelled as a character-list comparison so that it
evaluates inside the kernel. -/
def is_link_local (address : String) : Bool :=
  List.isPrefixOf "fe80".data address.data

/-- Embedding of `is_interface_configured`: False when `nic.ipaddr` is
None; otherwise scans the address records and returns True at the first
record whose address is truthy (a non-empty string) and not link-local. -/
def is_interface_configured (nic : Interface) : Bool :=
  match nic.ipaddr with
  | none => false
  | some records => records.any (fun ip => ip ≠ "" && !is_link_local ip)

/-- The loop body of `filter_candidate_nics` for one interface: `true`
exactly when the interface survives all three gates (bond-slave,
virtual-kind, configured) and its name is appended to the result. -/
def is_candidate (virtual_nics : List String) (nic : Interface) : Bool :=
  if nic.slave_kind = some "bond" then
    false
  else if virtual_nics.contains nic.ifname
      && !(nic.kind = "bond" || nic.kind = "vlan") then
    false
  else
    !is_interface_configured nic

/-- Embedding of `filter_candidate_nics`: iterates the interfaces in
order, skips bond slaves, skips virtual interfaces whose kind is neither
`"bond"` nor `"vlan"`, skips configured interfaces, and appends the
names of the survivors.  The set of virtual interface names (read from
`/sys/devices/virtual/net` in the source) is passed explicitly. -/
def filter_candidate_nics (virtual_nics : List String) :
    List Interface → List String
  | [] => []
  | nic :: rest =>
    if nic.slave_kind = some "bond" then
      filter_candidate_nics virtual_nics rest
    else if virtual_nics.contains nic.ifname
        && !(nic.kind = "bond" || nic.kind = "vlan") then
      filter_candidate_nics virtual_nics rest
    else if is_interface_configured nic then
      filter_candidate_nics virtual_nics rest
    else
      nic.ifname :: filter_candidate_nics virtual_nics rest

/-- The interface snapshot of the reference test fixture in
`tests/unit/cli/test_interfaces.py`. -/
def fixtureInterfaces : List Interface :=
  [ ⟨"eth0", none, "eth", some ["192.168.1.1"]⟩
  , ⟨"eth1", some "bond", "eth", some ["192.168.1.2"]⟩
  , ⟨"eth2", none, "eth", some []⟩
  , ⟨"vlan0", none, "vlan", some ["fe80::1"]⟩
  , ⟨"bond0", none, "bond", some ["192.168.1.3"]⟩
  , ⟨"bond1", none, "bond", some []⟩ ]

/-- The mocked virtual-interface name set of the reference test. -/
def fixtureVirtual : List String := ["vlan0", "bond0", "bond1"]

/-- Characterisation of the per-interface decision: an interface is kept
iff it is not a bond slave, is not a virtual interface of a kind other
than bond/vlan, and is not configured. -/
theorem is_candidate_iff (virtual_nics : List String) (nic : Interface) :
    is_candidate virtual_nics nic = true ↔
      nic.slave_kind ≠ some "bond"
      ∧ (virtual_nics.contains nic.ifname = true →
          (nic.kind = "bond" ∨ nic.kind = "vlan"))
      ∧ is_interface_configured nic = false := by
  unfold is_candidate
  split_ifs with h1 h2
  · simp [h1]
  · have h2' : nic.ifname ∈ virtual_nics
        ∧ ¬nic.kind = "bond" ∧ ¬nic.kind = "vlan" := by
      simpa using h2
    refine iff_of_false (by simp) ?_
    rintro ⟨-, himp, -⟩
    rcases himp (by simpa using h2'.1) with hb | hv
    · exact h2'.2.1 hb
    · exact h2'.2.2 hv
  · constructor
    · intro h
      refine ⟨h1, ?_, by rwa [Bool.not_eq_true'] at h⟩
      intro hcont
      by_contra hk
      push_neg at hk
      refine h2 ?_
      simp [hk.1, hk.2]
      simpa using hcont
    · rintro ⟨-, -, hconf⟩
      rw [hconf]
      rfl

/-- Unrolling lemma: the classifier is the per-interface candidate test,
filtered over the input and projected to names. -/
theorem filter_candidate_nics_eq_filter_map
    (virtual_nics : List String) (nics : List Interface) :
    filter_candidate_nics virtual_nics nics
      = (nics.filter (is_candidate virtual_nics)).map Interface.ifname := by
  induction nics with
  | nil => rfl
  | cons nic rest ih =>
    simp only [filter_candidate_nics]
    by_cases h1 : nic.slave_kind = some "bond"
    · have hc : is_candidate virtual_nics nic = false := by
        unfold is_candidate; rw [if_pos h1]
      rw [if_pos h1, List.filter_cons_of_neg (by simp [hc]), ih]
    · by_cases h2 : (virtual_nics.contains nic.ifname
          && !(nic.kind = "bond" || nic.kind = "vlan")) = true
      · have hc : is_candidate virtual_nics nic = false := by
          unfold is_candidate; rw [if_neg h1, if_pos h2]
        rw [if_neg h1, if_pos h2, List.filter_cons_of_neg (by simp [hc]), ih]
      · by_cases h3 : is_interface_configured nic = true
        · have hc : is_candidate virtual_nics nic = false := by
            unfold is_candidate; rw [if_neg h1, if_neg h2]; simp [h3]
          rw [if_neg h1, if_neg h2, if_pos h3,
            List.filter_cons_of_neg (by simp [hc]), ih]
        · have hc : is_candidate virtual_nics nic = true := by
            unfold is_candidate; rw [if_neg h1, if_neg h2]; simp [h3]
          rw [if_neg h1, if_neg h2, if_neg h3,
            List.filter_cons_of_pos hc, List.map_cons, ih]

/-- Membership in the classifier's result comes exactly from an input
interface with that name that passes all three gates. -/
theorem mem_filter_candidate_nics (virtual_nics : List String)
    (nics : List Interface) (name : String) :
    name ∈ filter_candidate_nics virtual_nics nics ↔
      ∃ nic ∈ nics, is_candidate virtual_nics nic = true
        ∧ nic.ifname = name := by
  rw [filter_candidate_nics_eq_filter_map]
  simp only [List.mem_map, List.mem_filter]
  constructor
  · rintro ⟨nic, ⟨hmem, hcand⟩, hname⟩
    exact ⟨nic, hmem, hcand, hname⟩
  · rintro ⟨nic, hmem, hcand, hname⟩
    exact ⟨nic, ⟨hmem, hcand⟩, hname⟩

/-- Characterisation of `is_interface_configured` on a present address
summary: true iff some address is non-empty and not link-local. -/
theorem configured_some_iff (name kind : String) (slave : Option String)
    (addrs : List String) :
    is_interface_configured ⟨name, slave, kind, some addrs⟩ = true
      ↔ ∃ ip ∈ addrs, ip ≠ "" ∧ is_link_local ip = false := by
  simp [is_interface_configured, List.any_eq_true, Bool.not_eq_true']

/-- Claim C1: an interface enslaved to a bond (`slave_kind == "bond"`) is
never claimed: whenever every input record carrying a given name is a
bond slave, that name is absent from the classifier's result, regardless
of the records' other attributes. -/
theorem bond_slave_name_never_candidate
    (virtual_nics : List String) (nics : List Interface) (name : String)
    (h : ∀ nic ∈ nics, nic.ifname = name → nic.slave_kind = some "bond") :
    name ∉ filter_candidate_nics virtual_nics nics := by
  rw [mem_filter_candidate_nics]
  rintro ⟨nic, hmem, hcand, hname⟩
  exact ((is_candidate_iff virtual_nics nic).mp hcand).1 (h nic hmem hname)

/-- Witness for C1 at a concrete bond slave. -/
theorem bond_slave_name_never_candidate_witness :
    "eth5" ∉ filter_candidate_nics []
      [⟨"eth5", some "bond", "eth", some []⟩] :=
  bond_slave_name_never_candidate []
    [⟨"eth5", some "bond", "eth", some []⟩] "eth5" (by decide)

/-- Claim C2: a virtual interface (name in the virtual set) that is not a
bond slave and whose kind is neither `"bond"` nor `"vlan"` is excluded
from the classifier's result. -/
theorem virtual_other_kind_excluded
    (virtual_nics : List String) (nics : List Interface) (name : String)
    (h : ∀ nic ∈ nics, nic.ifname = name →
      nic.slave_kind ≠ some "bond"
      ∧ virtual_nics.contains name = true
      ∧ nic.kind ≠ "bond" ∧ nic.kind ≠ "vlan") :
    name ∉ filter_candidate_nics virtual_nics nics := by
  rw [mem_filter_candidate_nics]
  rintro ⟨nic, hmem, hcand, hname⟩
  obtain ⟨-, hcont, hkb, hkv⟩ := h nic hmem hname
  obtain ⟨-, himp, -⟩ := (is_candidate_iff virtual_nics nic).mp hcand
  rcases himp (by rw [hname]; exact hcont) with hb | hv
  exacts [hkb hb, hkv hv]

/-- Witness for C2 at a concrete virtual tunnel interface. -/
theorem virtual_other_kind_excluded_witness :
    "tun0" ∉ filter_candidate_nics ["tun0"]
      [⟨"tun0", none, "tun", some []⟩] :=
  virtual_other_kind_excluded ["tun0"]
    [⟨"tun0", none, "tun", some []⟩] "tun0" (by decide)

/-- Counterexample to C3 as stated: a record of kind `"vlan"`, name in
the virtual set, with no address at all (so not configured), is still
excluded when it is itself a bond slave — the bond-slave gate fires
first. -/
theorem bond_slave_virtual_kind_not_included :
    (Interface.kind ⟨"vbond0", some "bond", "vlan", some []⟩ = "vlan"
      ∧ List.contains ["vbond0"] "vbond0" = true
      ∧ is_interface_configured ⟨"vbond0", some "bond", "vlan", some []⟩
          = false)
    ∧ "vbond0" ∉ filter_candidate_nics ["vbond0"]
        [⟨"vbond0", some "bond", "vlan", some []⟩] := by
  decide

/-- Claim C3 (amended): a record of kind `"bond"` or `"vlan"`, with name
in the virtual set, not configured, AND not itself a bond slave, is
included in the classifier's result. -/
theorem unconfigured_virtual_bond_vlan_included
    (virtual_nics : List String) (nics : List Interface) (nic : Interface)
    (hmem : nic ∈ nics)
    (hslave : nic.slave_kind ≠ some "bond")
    (hkind : nic.kind = "bond" ∨ nic.kind = "vlan")
    (_hvirt : virtual_nics.contains nic.ifname = true)
    (hconf : is_interface_configured nic = false) :
    nic.ifname ∈ filter_candidate_nics virtual_nics nics := by
  rw [mem_filter_candidate_nics]
  exact ⟨nic, hmem,
    (is_candidate_iff _ _).mpr ⟨hslave, fun _ => hkind, hconf⟩, rfl⟩

/-- Witness for amended C3: `bond1` of the reference fixture. -/
theorem unconfigured_virtual_bond_vlan_included_witness :
    Interface.ifname ⟨"bond1", none, "bond", some []⟩
      ∈ filter_candidate_nics fixtureVirtual fixtureInterfaces :=
  unconfigured_virtual_bond_vlan_included fixtureVirtual fixtureInterfaces
    ⟨"bond1", none, "bond", some []⟩
    (by decide) (by decide) (by decide) (by decide) (by decide)

/-- Counterexample to C4 as stated: an interface whose only address is
the empty string is not configured, although the empty string does not
start with `"fe80"` — the claimed iff fails there. -/
theorem configured_iff_nonlinklocal_fails_on_empty_string :
    ¬ (is_interface_configured ⟨"eth9", none, "eth", some [""]⟩ = true
        ↔ ∃ ip ∈ [("" : String)], is_link_local ip = false) := by
  decide

/-- Claim C4 (amended): `is_interface_configured` is true iff at least
one address string is non-empty and does not start with `"fe80"`; in
particular it is false for an empty address list and false when every
address is empty or starts with `"fe80"`. -/
theorem configured_iff_exists_nonempty_nonlinklocal
    (name kind : String) (slave : Option String) (addrs : List String) :
    is_interface_configured ⟨name, slave, kind, some addrs⟩ = true
      ↔ ∃ ip ∈ addrs, ip ≠ "" ∧ is_link_local ip = false :=
  configured_some_iff name kind slave addrs

/-- Claim C5: an interface that passes the bond-slave and virtual-kind
gates but is configured (has a truthy non-link-local address) is
excluded from the classifier's result. -/
theorem configured_excluded_after_gates
    (virtual_nics : List String) (nics : List Interface) (name : String)
    (h : ∀ nic ∈ nics, nic.ifname = name →
      nic.slave_kind ≠ some "bond"
      ∧ (virtual_nics.contains name = true →
          (nic.kind = "bond" ∨ nic.kind = "vlan"))
      ∧ is_interface_configured nic = true) :
    name ∉ filter_candidate_nics virtual_nics nics := by
  rw [mem_filter_candidate_nics]
  rintro ⟨nic, hmem, hcand, hname⟩
  obtain ⟨-, -, hconf⟩ := h nic hmem hname
  obtain ⟨-, -, hncf⟩ := (is_candidate_iff virtual_nics nic).mp hcand
  rw [hconf] at hncf
  cases hncf

/-- Witness for C5 at a concrete configured bond interface. -/
theorem configured_excluded_after_gates_witness :
    "bond0" ∉ filter_candidate_nics ["bond0"]
      [⟨"bond0", none, "bond", some ["192.168.1.3"]⟩] :=
  configured_excluded_after_gates ["bond0"]
    [⟨"bond0", none, "bond", some ["192.168.1.3"]⟩] "bond0" (by decide)

/-- Claim C6: on the reference fixture (with its mocked virtual set) the
classifier returns exactly `["eth2", "vlan0", "bond1"]`, in that order. -/
theorem fixture_classification :
    filter_candidate_nics fixtureVirtual fixtureInterfaces
      = ["eth2", "vlan0", "bond1"] := by
  decide

/-- Claim C7: for inputs with pairwise-distinct names, the classifier's
result is a duplicate-free subsequence of the input name sequence: names
come from the input, in the same relative order, with no repeats. -/
theorem classify_sublist_nodup
    (virtual_nics : List String) (nics : List Interface)
    (h : (nics.map Interface.ifname).Nodup) :
    (filter_candidate_nics virtual_nics nics).Sublist
        (nics.map Interface.ifname)
    ∧ (filter_candidate_nics virtual_nics nics).Nodup := by
  have hsub : (filter_candidate_nics virtual_nics nics).Sublist
      (nics.map Interface.ifname) := by
    rw [filter_candidate_nics_eq_filter_map]
    exact (List.filter_sublist nics).map Interface.ifname
  exact ⟨hsub, h.sublist hsub⟩

/-- Witness for C7 at the reference fixture. -/
theorem classify_sublist_nodup_witness :
    (filter_candidate_nics fixtureVirtual fixtureInterfaces).Sublist
        (fixtureInterfaces.map Interface.ifname)
    ∧ (filter_candidate_nics fixtureVirtual fixtureInterfaces).Nodup :=
  classify_sublist_nodup fixtureVirtual fixtureInterfaces (by decide)

/-- Claim C8: the classifier is deterministic — equal inputs give equal
outputs — and carries no state across interfaces: it distributes over
concatenation of the input snapshot. -/
theorem classify_deterministic_and_stateless
    (virtual_nics : List String) (nics nics' pre post : List Interface)
    (h : nics = nics') :
    (filter_candidate_nics virtual_nics nics
        = filter_candidate_nics virtual_nics nics')
    ∧ filter_candidate_nics virtual_nics (pre ++ post)
        = filter_candidate_nics virtual_nics pre
          ++ filter_candidate_nics virtual_nics post := by
  refine ⟨by rw [h], ?_⟩
  rw [filter_candidate_nics_eq_filter_map,
    filter_candidate_nics_eq_filter_map,
    filter_candidate_nics_eq_filter_map,
    List.filter_append, List.map_append]

/-- Witness for C8 at the reference fixture, split after three records. -/
theorem classify_deterministic_and_stateless_witness :
    (filter_candidate_nics fixtureVirtual fixtureInterfaces
        = filter_candidate_nics fixtureVirtual fixtureInterfaces)
    ∧ filter_candidate_nics fixtureVirtual
          (fixtureInterfaces.take 3 ++ fixtureInterfaces.drop 3)
        = filter_candidate_nics fixtureVirtual (fixtureInterfaces.take 3)
          ++ filter_candidate_nics fixtureVirtual (fixtureInterfaces.drop 3) :=
  classify_deterministic_and_stateless fixtureVirtual
    fixtureInterfaces fixtureInterfaces
    (fixtureInterfaces.take 3) (fixtureInterfaces.drop 3) rfl

/-- Claim C9: `is_interface_configured` is invariant under permutation
of the address list — it is existential over the addresses present. -/
theorem configured_perm_invariant
    (name kind : String) (slave : Option String)
    (addrs addrs' : List String) (h : addrs.Perm addrs') :
    is_interface_configured ⟨name, slave, kind, some addrs⟩
      = is_interface_configured ⟨name, slave, kind, some addrs'⟩ := by
  simp only [is_interface_configured]
  rw [Bool.eq_iff_iff]
  simp only [List.any_eq_true]
  constructor
  · rintro ⟨ip, hip, hp⟩
    exact ⟨ip, h.mem_iff.mp hip, hp⟩
  · rintro ⟨ip, hip, hp⟩
    exact ⟨ip, h.mem_iff.mpr hip, hp⟩

/-- Witness for C9 at a concrete two-address swap. -/
theorem configured_perm_invariant_witness :
    is_interface_configured
        ⟨"eth8", none, "eth", some ["fe80::1", "10.0.0.5"]⟩
      = is_interface_configured
        ⟨"eth8", none, "eth", some ["10.0.0.5", "fe80::1"]⟩ :=
  configured_perm_invariant "eth8" "eth" none
    ["fe80::1", "10.0.0.5"] ["10.0.0.5", "fe80::1"] (by decide)

/-- Claim C10: empty-string address entries are ignored by
`is_interface_configured`: an interface whose addresses are all empty
strings or link-local is reported not configured, and (when not a bond
slave and not in the virtual set) is a candidate — even though the empty
string does not start with `"fe80"`. -/
theorem empty_addresses_ignored
    (name kind : String) (slave : Option String)
    (addrs virtual_nics : List String)
    (hnv : virtual_nics.contains name = false)
    (hall : ∀ a ∈ addrs, a = "" ∨ is_link_local a = true) :
    is_interface_configured ⟨name, slave, kind, some addrs⟩ = false
    ∧ is_candidate virtual_nics ⟨name, none, kind, some addrs⟩ = true := by
  have key : ∀ sk : Option String,
      is_interface_configured ⟨name, sk, kind, some addrs⟩ = false := by
    intro sk
    cases hx : is_interface_configured ⟨name, sk, kind, some addrs⟩ with
    | false => rfl
    | true =>
      obtain ⟨ip, hip, hne, hll⟩ := (configured_some_iff name kind sk addrs).mp hx
      rcases hall ip hip with he | hl
      · exact absurd he hne
      · rw [hl] at hll
        cases hll
  refine ⟨key slave, (is_candidate_iff _ _).mpr ⟨by simp, ?_, key none⟩⟩
  intro hcont
  have hnv' : name ∉ virtual_nics := by simpa using hnv
  exact absurd (by simpa using hcont) hnv'

/-- Witness for C10 at a concrete list of an empty-string and a
link-local address. -/
theorem empty_addresses_ignored_witness :
    is_interface_configured ⟨"eth6", none, "eth", some ["", "fe80::2"]⟩
        = false
    ∧ is_candidate [] ⟨"eth6", none, "eth", some ["", "fe80::2"]⟩ = true :=
  empty_addresses_ignored "eth6" "eth" none ["", "fe80::2"] []
    (by decide) (by decide)

end OpenstackHypervisor
